import Mathlib

/-!
Verification development for the bootchat repository: a chat web application
with an Express/Postgres backend (the server source embedded in
`PERFORMANCE_OPTIMIZATIONS.md`, schema in `database_schema.sql`) and a browser
client (`script.js`).  The definitions below are a shallow embedding of the
code: SQL tables become lists of rows, handlers become pure functions from a
database state and a request to a response and a new database state, and the
client's batching logic becomes a state machine.  Timestamps are abstract
`Nat` ticks passed in as a `now` parameter; UUIDs are modelled as `Nat` ids
drawn from a counter.
-/

namespace Bootchat

/-- Structural test that `p` is a prefix of `l`. -/
def isPrefixList : List Char → List Char → Bool
  | [], _ => true
  | _ :: _, [] => false
  | a :: as, b :: bs => a == b && isPrefixList as bs

/-- Structural substring search over character lists. -/
def containsList (p : List Char) : List Char → Bool
  | [] => p.isEmpty
  | c :: rest => isPrefixList p (c :: rest) || containsList p rest

/-- Model of JavaScript `String.prototype.includes`: substring test
(the empty pattern is contained in every string). -/
def jsIncludes (s pat : String) : Bool :=
  containsList pat.data s.data

/-- JavaScript `s.split(sep)` for a single-character separator, by structural
recursion over the characters (`cur` is the current chunk, reversed). -/
def splitCharAux (sep : Char) : List Char → List Char → List (List Char)
  | cur, [] => [cur.reverse]
  | cur, c :: rest =>
    if c == sep then cur.reverse :: splitCharAux sep [] rest
    else splitCharAux sep (c :: cur) rest

/-- JavaScript `s.split(sep)` for a single-character separator. -/
def jsSplitChar (s : String) (sep : Char) : List String :=
  (splitCharAux sep [] s.data).map (fun cs => ⟨cs⟩)

/-- Decimal parse of a nonempty digit string (used to read back the id of a
modelled JWT). -/
def natFromDigitsAux : List Char → Nat → Option Nat
  | [], acc => some acc
  | c :: rest, acc =>
    if c.isDigit then natFromDigitsAux rest (acc * 10 + (c.toNat - 48)) else none

/-- Decimal parse; `none` on the empty list or a non-digit. -/
def natFromDigits : List Char → Option Nat
  | [] => none
  | l => natFromDigitsAux l 0

/-- Abstract model of `bcrypt.hash(password, 10)`: an injective tagging
function.  Only the properties "hashes of distinct passwords differ" and
"compare succeeds exactly on the hashed password" are used. -/
def bcryptHash (password : String) : String :=
  "$2b$10$" ++ password

/-- Abstract model of `bcrypt.compare(password, hash)`. -/
def bcryptCompare (password hash : String) : Bool :=
  hash == bcryptHash password

/-- The payload `{ id, email }` that the server signs into a JWT. -/
structure JwtClaims where
  id : Nat
  email : String
deriving Repr, DecidableEq

/-- Abstract model of `jwt.sign({id, email}, JWT_SECRET, {expiresIn: 7d})`. -/
def jwtSign (c : JwtClaims) : String :=
  "jwt." ++ toString c.id ++ "." ++ c.email

/-- Abstract model of `jwt.verify(token, JWT_SECRET, cb)`: tokens produced by
`jwtSign` verify to their claims, everything else fails. -/
def jwtVerify (token : String) : Option JwtClaims :=
  match jsSplitChar token '.' with
  | ["jwt", idStr, email] =>
    match natFromDigits idStr.data with
    | some id => some ⟨id, email⟩
    | none => none
  | _ => none

/-! ### Data model (`database_schema.sql`)

`users`, `conversations` and `messages` rows; the optional `api_keys`,
`user_settings` and `sessions` tables play no part in the claims. -/

/-- A row of the `users` table. -/
structure UserRow where
  id : Nat
  email : String
  password_hash : String
  name : String
  created_at : Nat
  last_login : Option Nat
  is_active : Bool
deriving Repr, DecidableEq

/-- A row of the `conversations` table. -/
structure ConversationRow where
  id : Nat
  user_id : Nat
  title : String
  created_at : Nat
  updated_at : Nat
  is_archived : Bool
deriving Repr, DecidableEq

/-- A row of the `messages` table. -/
structure MessageRow where
  id : Nat
  conversation_id : Nat
  role : String
  content : String
  created_at : Nat
  message_order : Nat
deriving Repr, DecidableEq

/-- The database state: the three tables plus a counter that models
`uuid_generate_v4()` id generation. -/
structure DB where
  nextId : Nat
  users : List UserRow
  conversations : List ConversationRow
  messages : List MessageRow
deriving Repr, DecidableEq

/-- The freshly created database. -/
def DB.empty : DB := ⟨1, [], [], []⟩

/-- One entry of the `GET /api/conversations` response array. -/
structure ConvSummary where
  id : Nat
  title : String
  createdAt : Nat
  updatedAt : Nat
  messageCount : Nat
deriving Repr, DecidableEq

/-- JSON response bodies of the API endpoints.  `bulkOk` omits the echoed
array of inserted rows, which no claim depends on. -/
inductive ResBody where
  | errorMsg (msg : String)
  | signupOk (id : Nat) (name email token : String)
  | loginOk (id : Nat) (name email token : String)
  | verifyOk (user : JwtClaims)
  | convList (items : List ConvSummary)
  | convCreated (id : Nat) (title : String) (createdAt updatedAt : Nat)
  | convUpdated (id : Nat) (title : String) (updatedAt : Nat)
  | deleteOk
  | messageOk (id : Nat) (role content : String) (createdAt messageOrder : Nat)
  | bulkOk
deriving Repr, DecidableEq

/-- An HTTP response: status code plus JSON body. -/
structure Response where
  status : Nat
  body : ResBody
deriving Repr, DecidableEq

/-! ### Authentication middleware (`authenticateToken`) -/

/-- Token extraction `authHeader && authHeader.split(' ')[1]`.  A missing
header, a header without a second space-separated part, and an empty second
part (all falsy in JS) yield no token. -/
def extractToken (authHeader : Option String) : Option String :=
  match authHeader with
  | none => none
  | some h =>
    match (jsSplitChar h ' ').get? 1 with
    | none => none
    | some t => if t.isEmpty then none else some t

/-- The `authenticateToken` middleware: 401 without a token, 403 when the
token does not verify, otherwise the route handler runs with the verified
user. -/
def withAuth (db : DB) (authHeader : Option String)
    (handler : JwtClaims → Response × DB) : Response × DB :=
  match extractToken authHeader with
  | none => (⟨401, .errorMsg "Access token required"⟩, db)
  | some t =>
    match jwtVerify t with
    | none => (⟨403, .errorMsg "Invalid or expired token"⟩, db)
    | some user => handler user

/-! ### Auth endpoints -/

/-- Body of `POST /api/auth/signup`; an empty string models a missing field
(both are falsy in the handler's `!name || !email || !password` check). -/
structure SignupBody where
  name : String
  email : String
  password : String
deriving Repr, DecidableEq

/-- `POST /api/auth/signup`. -/
def signup (db : DB) (now : Nat) (b : SignupBody) : Response × DB :=
  if b.name.isEmpty || b.email.isEmpty || b.password.isEmpty then
    (⟨400, .errorMsg "Name, email, and password are required"⟩, db)
  else if b.password.length < 6 then
    (⟨400, .errorMsg "Password must be at least 6 characters"⟩, db)
  else if !(db.users.filter (fun u => u.email == b.email)).isEmpty then
    (⟨400, .errorMsg "User with this email already exists"⟩, db)
  else
    let newUser : UserRow :=
      ⟨db.nextId, b.email, bcryptHash b.password, b.name, now, none, true⟩
    (⟨201, .signupOk db.nextId b.name b.email (jwtSign ⟨db.nextId, b.email⟩)⟩,
     { db with nextId := db.nextId + 1, users := db.users ++ [newUser] })

/-- Body of `POST /api/auth/login`. -/
structure LoginBody where
  email : String
  password : String
deriving Repr, DecidableEq

/-- `POST /api/auth/login`.  The user lookup is
`SELECT * FROM users WHERE email = $1 AND is_active = true` (first row). -/
def login (db : DB) (now : Nat) (b : LoginBody) : Response × DB :=
  if b.email.isEmpty || b.password.isEmpty then
    (⟨400, .errorMsg "Email and password are required"⟩, db)
  else
    match db.users.find? (fun u => u.email == b.email && u.is_active) with
    | none => (⟨401, .errorMsg "Invalid email or password"⟩, db)
    | some user =>
      if !(bcryptCompare b.password user.password_hash) then
        (⟨401, .errorMsg "Invalid email or password"⟩, db)
      else
        (⟨200, .loginOk user.id user.name user.email (jwtSign ⟨user.id, user.email⟩)⟩,
         { db with users := db.users.map (fun u =>
             if u.id == user.id then { u with last_login := some now } else u) })

/-! ### Conversations endpoints -/

/-- `COUNT(m.id)` for one conversation in the `LEFT JOIN` of
`GET /api/conversations`. -/
def messageCountOf (db : DB) (convId : Nat) : Nat :=
  (db.messages.filter (fun m => m.conversation_id == convId)).length

/-- The comparison behind `ORDER BY c.updated_at DESC`: `a` may come before
`b` when `a.updated_at` is at least `b.updated_at`. -/
def updatedDesc (a b : ConversationRow) : Prop :=
  b.updated_at ≤ a.updated_at

instance : DecidableRel updatedDesc := fun a b => Nat.decLe b.updated_at a.updated_at

instance : IsTotal ConversationRow updatedDesc :=
  ⟨fun a b => Nat.le_total b.updated_at a.updated_at⟩

instance : IsTrans ConversationRow updatedDesc :=
  ⟨fun _ _ _ h1 h2 => Nat.le_trans h2 h1⟩

/-- The rows of the `GET /api/conversations` query: the caller's non-archived
conversations with message counts, ordered by `updated_at` descending. -/
def conversationSummaries (db : DB) (userId : Nat) : List ConvSummary :=
  let rows := db.conversations.filter (fun c => c.user_id == userId && !c.is_archived)
  (rows.insertionSort updatedDesc).map (fun c =>
    ⟨c.id, c.title, c.created_at, c.updated_at, messageCountOf db c.id⟩)

/-- `GET /api/conversations` (a read-only endpoint). -/
def getConversations (db : DB) (userId : Nat) : Response × DB :=
  (⟨200, .convList (conversationSummaries db userId)⟩, db)

/-- `POST /api/conversations`: `title || 'New Chat'`. -/
def createConversation (db : DB) (now : Nat) (userId : Nat) (title : Option String) :
    Response × DB :=
  let t := match title with
    | none => "New Chat"
    | some s => if s.isEmpty then "New Chat" else s
  (⟨201, .convCreated db.nextId t now now⟩,
   { db with nextId := db.nextId + 1,
             conversations := db.conversations ++ [⟨db.nextId, userId, t, now, now, false⟩] })

/-- The ownership check shared by the conversation/message handlers:
`SELECT id FROM conversations WHERE id = $1 AND user_id = $2` has a row. -/
def ownsConversation (db : DB) (convId userId : Nat) : Bool :=
  db.conversations.any (fun c => c.id == convId && c.user_id == userId)

/-- `PUT /api/conversations/:id` (title update). -/
def updateConversationTitle (db : DB) (now : Nat) (convId userId : Nat) (title : String) :
    Response × DB :=
  if title.isEmpty then
    (⟨400, .errorMsg "Title is required"⟩, db)
  else if !(ownsConversation db convId userId) then
    (⟨404, .errorMsg "Conversation not found"⟩, db)
  else
    (⟨200, .convUpdated convId title now⟩,
     { db with conversations := db.conversations.map (fun c =>
         if c.id == convId then { c with title := title, updated_at := now } else c) })

/-- `DELETE /api/conversations/:id`.  The single `DELETE FROM conversations`
statement removes the conversation row; the `ON DELETE CASCADE` foreign key
on `messages.conversation_id` (`database_schema.sql`, messages table) removes
that conversation's message rows with it. -/
def deleteConversation (db : DB) (convId userId : Nat) : Response × DB :=
  if !(ownsConversation db convId userId) then
    (⟨404, .errorMsg "Conversation not found"⟩, db)
  else
    (⟨200, .deleteOk⟩,
     { db with conversations := db.conversations.filter (fun c => !(c.id == convId)),
               messages := db.messages.filter (fun m => !(m.conversation_id == convId)) })

/-! ### Messages endpoints -/

/-- The `message_order` values stored for one conversation, in table order. -/
def ordersOf (db : DB) (convId : Nat) : List Nat :=
  (db.messages.filter (fun m => m.conversation_id == convId)).map
    (fun m => m.message_order)

/-- Maximum of a list of naturals, `0` on the empty list (the
`COALESCE(MAX(...), 0)` of the handlers). -/
def listMax : List Nat → Nat
  | [] => 0
  | x :: xs => max x (listMax xs)

/-- `SELECT COALESCE(MAX(message_order), 0) FROM messages WHERE
conversation_id = $1`. -/
def maxOrder (db : DB) (convId : Nat) : Nat :=
  listMax (ordersOf db convId)

/-- The title preview `content.substring(0, 50) + (content.length > 50 ? '...' : '')`. -/
def titlePreviewOf (content : String) : String :=
  (content.take 50) ++ (if 50 < content.length then "..." else "")

/-- `UPDATE conversations SET updated_at = NOW() WHERE id = $1`. -/
def touchConversation (db : DB) (now : Nat) (convId : Nat) : DB :=
  { db with conversations := db.conversations.map (fun c =>
      if c.id == convId then { c with updated_at := now } else c) }

/-- The conditional title update
`SET title = CASE WHEN title = 'New Chat' THEN $1 ELSE title END, updated_at = NOW()`. -/
def updateTitleIfNew (db : DB) (now : Nat) (convId : Nat) (titlePreview : String) : DB :=
  { db with conversations := db.conversations.map (fun c =>
      if c.id == convId then
        { c with title := if c.title == "New Chat" then titlePreview else c.title,
                 updated_at := now }
      else c) }

/-- Body of `POST /api/conversations/:id/messages`.  The handler destructures
only `role` and `content` from `req.body`; a client-supplied `message_order`
field is carried here to state that it is ignored. -/
structure MessageBody where
  role : String
  content : String
  message_order : Option Nat
deriving Repr, DecidableEq

/-- `POST /api/conversations/:id/messages`: validates the body, checks
ownership, assigns `message_order` as the conversation's current maximum plus
one, inserts, touches `updated_at`, and retitles a fresh conversation after
its first user message. -/
def addMessage (db : DB) (now : Nat) (convId userId : Nat) (b : MessageBody) :
    Response × DB :=
  if b.role.isEmpty || b.content.isEmpty then
    (⟨400, .errorMsg "Role and content are required"⟩, db)
  else if !(b.role == "user" || b.role == "ai" || b.role == "system") then
    (⟨400, .errorMsg "Role must be user, ai, or system"⟩, db)
  else if !(ownsConversation db convId userId) then
    (⟨404, .errorMsg "Conversation not found"⟩, db)
  else
    let messageOrder := maxOrder db convId + 1
    let msg : MessageRow := ⟨db.nextId, convId, b.role, b.content, now, messageOrder⟩
    let db1 : DB := { db with nextId := db.nextId + 1, messages := db.messages ++ [msg] }
    let db2 := touchConversation db1 now convId
    let db3 := if b.role == "user" && messageOrder == 1 then
        updateTitleIfNew db2 now convId (titlePreviewOf b.content)
      else db2
    (⟨201, .messageOk msg.id b.role b.content now messageOrder⟩, db3)

/-- One element of the `messages` array of the bulk endpoint; as in
`MessageBody`, the loop reads only `msg.role` and `msg.content`. -/
structure BulkItem where
  role : String
  content : String
  message_order : Option Nat
deriving Repr, DecidableEq

/-- A `BulkItem` with any client-supplied order dropped. -/
def clearBulkOrder (i : BulkItem) : BulkItem :=
  { i with message_order := none }

/-- The insertion loop of the bulk endpoint: `messageOrder` starts at the
current maximum and is pre-incremented for each inserted message, so the
items receive `startOrder + 1, startOrder + 2, ...` in array order. -/
def bulkInsertLoop (now convId : Nat) : List BulkItem → Nat → DB → DB
  | [], _, db => db
  | item :: rest, startOrder, db =>
    let messageOrder := startOrder + 1
    let msg : MessageRow := ⟨db.nextId, convId, item.role, item.content, now, messageOrder⟩
    let db1 : DB := { db with nextId := db.nextId + 1, messages := db.messages ++ [msg] }
    let db2 := if item.role == "user" && messageOrder == 1 then
        updateTitleIfNew db1 now convId (titlePreviewOf item.content)
      else db1
    bulkInsertLoop now convId rest messageOrder db2

/-- `POST /api/conversations/:id/messages/bulk`. -/
def bulkAddMessages (db : DB) (now : Nat) (convId userId : Nat) (items : List BulkItem) :
    Response × DB :=
  if items.isEmpty then
    (⟨400, .errorMsg "Messages array is required"⟩, db)
  else if !(ownsConversation db convId userId) then
    (⟨404, .errorMsg "Conversation not found"⟩, db)
  else
    let db1 := bulkInsertLoop now convId items (maxOrder db convId) db
    (⟨201, .bulkOk⟩, touchConversation db1 now convId)

/-! ### The server as a step relation

The mutating API calls, applied in any order with any parameters starting
from the empty database.  Read-only endpoints (`GET` routes, `/api/health`)
leave the database unchanged and are omitted. -/

/-- One authenticated, mutating API request. -/
inductive ServerOp where
  | signupOp (now : Nat) (b : SignupBody)
  | loginOp (now : Nat) (b : LoginBody)
  | createConvOp (now userId : Nat) (title : Option String)
  | updateConvOp (now convId userId : Nat) (title : String)
  | deleteConvOp (convId userId : Nat)
  | addMsgOp (now convId userId : Nat) (b : MessageBody)
  | bulkAddOp (now convId userId : Nat) (items : List BulkItem)
deriving Repr

/-- The database state after one request. -/
def applyOp (db : DB) : ServerOp → DB
  | .signupOp now b => (signup db now b).2
  | .loginOp now b => (login db now b).2
  | .createConvOp now userId title => (createConversation db now userId title).2
  | .updateConvOp now convId userId title => (updateConversationTitle db now convId userId title).2
  | .deleteConvOp convId userId => (deleteConversation db convId userId).2
  | .addMsgOp now convId userId b => (addMessage db now convId userId b).2
  | .bulkAddOp now convId userId items => (bulkAddMessages db now convId userId items).2

/-- Database states reachable from the empty database by API requests. -/
inductive Reachable : DB → Prop where
  | init : Reachable DB.empty
  | step (op : ServerOp) {db : DB} : Reachable db → Reachable (applyOp db op)

/-! ### Client message batching (`script.js`)

The mutable client globals `pendingMessages`, `batchTimeout`,
`isGeneratingResponse` and the sequence of upstream `generateAIResponse`
calls, with the single-threaded event loop modelled as a step relation.
`batchTimeout` is the (at most one) scheduled debounce timer, holding its
delay in milliseconds. -/

/-- `const BATCH_DELAY = 500`. -/
def BATCH_DELAY : Nat := 500

/-- The client's batching state.  `upstreamCalls` logs, oldest first, every
combined message handed to `generateAIResponse`. -/
structure ClientState where
  pendingMessages : List String
  batchTimeout : Option Nat
  isGeneratingResponse : Bool
  upstreamCalls : List String
deriving Repr, DecidableEq

/-- The client state at page load. -/
def ClientState.init : ClientState := ⟨[], none, false, []⟩

/-- `sendMessage(msg)`: returns at once while a response is being generated
or on an empty (trimmed) message; otherwise appends the message to the
pending batch, clears any existing timeout and schedules a fresh
`BATCH_DELAY` timer. -/
def sendMessage (s : ClientState) (msg : String) : ClientState :=
  if s.isGeneratingResponse then s
  else if msg.isEmpty then s
  else { s with pendingMessages := s.pendingMessages ++ [msg],
                batchTimeout := some BATCH_DELAY }

/-- `messagesToProcess.join('\n\n')`. -/
def combineMessages (msgs : List String) : String :=
  String.intercalate "\n\n" msgs

/-- The synchronous head of `processBatchedMessages()` up to the `await` of
`generateAIResponse`: returns at once when a generation is in flight or
nothing is pending; otherwise sets the flag, drains the pending batch and
issues exactly one upstream call with the joined messages. -/
def processBatchedMessages (s : ClientState) : ClientState :=
  if s.isGeneratingResponse || s.pendingMessages.isEmpty then s
  else { s with isGeneratingResponse := true,
                pendingMessages := [],
                upstreamCalls := s.upstreamCalls ++ [combineMessages s.pendingMessages] }

/-- The tail of `processBatchedMessages()` after `generateAIResponse`
settles: the flag is cleared and, when messages arrived meanwhile, a new
debounce timer is scheduled. -/
def completeGeneration (s : ClientState) : ClientState :=
  let s1 : ClientState := { s with isGeneratingResponse := false }
  if s1.pendingMessages.isEmpty then s1
  else { s1 with batchTimeout := some BATCH_DELAY }

/-- `stopAIResponse()`: aborts the request, clears the pending batch and the
timer, and resets the flag. -/
def stopAIResponse (s : ClientState) : ClientState :=
  { s with isGeneratingResponse := false, pendingMessages := [], batchTimeout := none }

/-- Events of the client's single-threaded event loop. -/
inductive ClientEvent where
  | send (msg : String)
  | timerFire
  | complete
  | stop
deriving Repr

/-- One event-loop turn of the client.  A `timerFire` consumes the scheduled
timer and runs `processBatchedMessages`; a `complete` is the resumption of a
generation that was in flight. -/
inductive ClientStep : ClientState → ClientEvent → ClientState → Prop where
  | send {s : ClientState} (msg : String) :
      ClientStep s (.send msg) (sendMessage s msg)
  | timerFire {s : ClientState} {d : Nat} (h : s.batchTimeout = some d) :
      ClientStep s .timerFire (processBatchedMessages { s with batchTimeout := none })
  | complete {s : ClientState} (h : s.isGeneratingResponse = true) :
      ClientStep s .complete (completeGeneration s)
  | stop {s : ClientState} :
      ClientStep s .stop (stopAIResponse s)

/-! ### Gemini client: model fallback and key rotation (`script.js`)

`tryGenerateWithKey` iterates over `(model, apiVersion)` configurations; the
remote endpoint is abstracted as a function from configuration to outcome.
The per-iteration error handling is embedded statement by statement,
including the `try`/`catch` nesting around the response-body reads. -/

/-- One `{ model, apiVersion }` entry of `modelConfigs`. -/
structure ModelConfig where
  model : String
  apiVersion : String
deriving Repr, DecidableEq

/-- The hard-coded `modelConfigs` list (a `checkAvailableModels` call may
prepend further entries; the loop below is stated over any list). -/
def defaultModelConfigs : List ModelConfig :=
  [⟨"gemini-1.5-flash", "v1beta"⟩,
   ⟨"gemini-1.5-pro", "v1beta"⟩,
   ⟨"gemini-2.0-flash-exp", "v1beta"⟩,
   ⟨"gemini-1.5-flash-002", "v1beta"⟩,
   ⟨"gemini-1.5-pro-002", "v1beta"⟩,
   ⟨"gemini-1.5-flash-001", "v1beta"⟩,
   ⟨"gemini-1.5-pro-001", "v1beta"⟩,
   ⟨"gemini-1.5-flash-latest", "v1beta"⟩,
   ⟨"gemini-1.5-pro-latest", "v1beta"⟩]

/-- Outcome of one `fetch` of `:generateContent`.  `ok` is a 2xx answer with
a well-formed candidates body; `httpError` is a non-ok status whose JSON
error body has `error.message = errMsg`; `netError` is a rejected fetch. -/
inductive FetchOutcome where
  | ok (text : String)
  | httpError (status : Nat) (errMsg : String)
  | netError (msg : String)
deriving Repr, DecidableEq

/-- The message of the `TypeError` thrown when a response body is read a
second time (`response.text()` after `response.json()` consumed it). -/
def bodyAlreadyReadMsg : String :=
  "Failed to execute text on Response: body stream already read"

/-- The `lastError` update in the outer fetch `catch`: keep the old error
unless there is none or it is an all-configurations-failed error. -/
def updateFetchLastError (lastError : Option String) (femsg : String) : Option String :=
  match lastError with
  | none => some femsg
  | some m => if jsIncludes m "All API model configurations failed" then some femsg else some m

/-- The error thrown when the configuration list is exhausted. -/
def finalFailure (lastError : Option String) : String :=
  let errMsg := match lastError with | some m => m | none => "Unknown error"
  if jsIncludes errMsg "404" || jsIncludes errMsg "not found" then
    "All API model configurations failed - None of the tried models are available for this API key. Please check your API key has access to Gemini models, or try a different API key."
  else
    match lastError with
    | some m => m
    | none => "All API model configurations failed. Please check your API key and internet connection."

/-- The `for (const config of modelConfigs)` loop of `tryGenerateWithKey`,
with the accumulated `lastError`.  On a non-ok response the handler runs
inside `try { response.json() ... } catch (e) { errorText = await
response.text() ... }`: the 404-not-found branch records a model-not-found
error and continues; the 401/403 branch throws an authentication error, but
that throw is caught by the same `catch (e)`, whose second body read throws
a `TypeError` that the outer fetch `catch` records before continuing; every
other status records an API error and continues. -/
def modelLoop (env : ModelConfig → FetchOutcome) :
    List ModelConfig → Option String → Except String String
  | [], lastError => .error (finalFailure lastError)
  | c :: rest, lastError =>
    match env c with
    | .ok text => .ok text
    | .httpError status errMsg =>
      if status == 404 && jsIncludes errMsg "not found" then
        modelLoop env rest
          (some ("Model " ++ c.model ++ " not found for API version " ++ c.apiVersion))
      else if status == 401 || status == 403 then
        modelLoop env rest (updateFetchLastError lastError bodyAlreadyReadMsg)
      else
        modelLoop env rest (some ("AI API error: " ++ toString status ++ " - " ++ errMsg))
    | .netError m => modelLoop env rest (updateFetchLastError lastError m)

/-- `tryGenerateWithKey(apiKey, ...)`: run the configuration loop for one
key against the endpoint `env`. -/
def tryGenerateWithKey (env : String → ModelConfig → FetchOutcome) (apiKey : String)
    (configs : List ModelConfig) : Except String String :=
  modelLoop (env apiKey) configs none

/-- The `for (const keyObj of keys)` fallback of `generateAIResponse`: the
first alternative key whose generation succeeds wins; failures are ignored. -/
def tryOtherKeys (env : String → ModelConfig → FetchOutcome) (configs : List ModelConfig) :
    List String → Option String
  | [] => none
  | k :: ks =>
    match tryGenerateWithKey env k configs with
    | .ok t => some t
    | .error _ => tryOtherKeys env configs ks

/-- The key-rotation skeleton of `generateAIResponse`: try the primary key;
on failure try each remaining stored key in turn, then the built-in key
(when configured, different from the primary, and not disabled), and
otherwise rethrow the primary key's error. -/
def generateAIResponse (env : String → ModelConfig → FetchOutcome)
    (configs : List ModelConfig) (primaryKey : String) (userKeys : List String)
    (builtinKey : Option String) (useBuiltinKeyPref : Bool) : Except String String :=
  match tryGenerateWithKey env primaryKey configs with
  | .ok t => .ok t
  | .error e =>
    match tryOtherKeys env configs (userKeys.filter (fun k => !(k == primaryKey))) with
    | some t => .ok t
    | none =>
      match builtinKey with
      | some bk =>
        if !(bk == primaryKey) && useBuiltinKeyPref then
          match tryGenerateWithKey env bk configs with
          | .ok t => .ok t
          | .error _ => .error e
        else .error e
      | none => .error e

/-! ### Concrete fixtures used by the witnesses -/

/-- A small database: one user owning two conversations with messages. -/
def fixtureDB : DB :=
  { nextId := 10,
    users := [⟨1, "ana@example.com", bcryptHash "secret1", "Ana", 0, none, true⟩],
    conversations := [⟨2, 1, "New Chat", 1, 3, false⟩, ⟨3, 1, "Other", 1, 2, false⟩],
    messages := [⟨4, 2, "user", "hello", 2, 1⟩, ⟨5, 2, "ai", "hi there", 2, 2⟩,
                 ⟨6, 3, "user", "yo", 2, 1⟩] }

/-- A signup body whose password is shorter than six characters. -/
def shortPwBody : SignupBody := ⟨"Ana", "ana@example.com", "abc"⟩

/-- A trivial protected-route handler used to instantiate the middleware. -/
def okHandler : JwtClaims → Response × DB := fun _ => (⟨200, .deleteOk⟩, fixtureDB)

/-! ### C6 — authentication of protected routes -/

/-- C6: a request to a protected route without a bearer token is answered
401 with a JSON error body, and one whose token fails JWT verification is
answered 403 with a JSON error body; in both cases the database is returned
unchanged and the route handler's result is not consulted. -/
theorem protected_route_auth (db : DB) (authHeader : Option String)
    (handler : JwtClaims → Response × DB) :
    (extractToken authHeader = none →
      withAuth db authHeader handler = (⟨401, .errorMsg "Access token required"⟩, db))
    ∧ (∀ t, extractToken authHeader = some t → jwtVerify t = none →
      withAuth db authHeader handler = (⟨403, .errorMsg "Invalid or expired token"⟩, db)) := by
  constructor
  · intro h
    simp [withAuth, h]
  · intro t ht hv
    simp [withAuth, ht, hv]

/-- Witness for C6: a request with no Authorization header gets a 401, one
with an unverifiable bearer token gets a 403, both leaving the database as
it was. -/
theorem protected_route_auth_witness :
    (withAuth fixtureDB none okHandler = (⟨401, .errorMsg "Access token required"⟩, fixtureDB))
    ∧ (withAuth fixtureDB (some "Bearer bogus") okHandler
        = (⟨403, .errorMsg "Invalid or expired token"⟩, fixtureDB)) :=
  ⟨(protected_route_auth fixtureDB none okHandler).1 (by decide),
   (protected_route_auth fixtureDB (some "Bearer bogus") okHandler).2 "bogus" (by decide)
     (by decide)⟩

/-! ### C9 — signup validation happens before the database -/

/-- C9: a signup whose password is shorter than 6 characters, or with a
missing name, email or password, is rejected with a 400 whose response does
not depend on the database (the database is never consulted) and the
database is unchanged, so no user row is created. -/
theorem signup_validation_rejects (db db2 : DB) (now now2 : Nat) (b : SignupBody)
    (h : b.password.length < 6 ∨ b.name = "" ∨ b.email = "" ∨ b.password = "") :
    (signup db now b).1.status = 400
    ∧ (signup db now b).2 = db
    ∧ (signup db now b).1 = (signup db2 now2 b).1 := by
  by_cases h1 : (b.name.isEmpty || b.email.isEmpty || b.password.isEmpty) = true
  · simp [signup, h1]
  · have hlen : b.password.length < 6 := by
      rcases h with h | h | h | h
      · exact h
      all_goals
        simp only [Bool.or_eq_true, String.isEmpty_iff, not_or] at h1
        exact absurd h (by tauto)
    simp [signup, h1, hlen]

/-- Witness for C9: a concrete signup with the 3-character password `abc`
is answered 400 against two different databases with the same response, and
neither database changes. -/
theorem signup_validation_rejects_witness :
    (shortPwBody.password.length < 6 ∨ shortPwBody.name = "" ∨ shortPwBody.email = ""
      ∨ shortPwBody.password = "")
    ∧ ((signup DB.empty 5 shortPwBody).1.status = 400
       ∧ (signup DB.empty 5 shortPwBody).2 = DB.empty
       ∧ (signup DB.empty 5 shortPwBody).1 = (signup fixtureDB 7 shortPwBody).1) :=
  ⟨by decide, signup_validation_rejects DB.empty fixtureDB 5 7 shortPwBody (by decide)⟩

/-! ### C5 — deleting a conversation cascades to its messages -/

/-- C5: a successful `DELETE /api/conversations/:id` by the owner removes
the conversation and, through the cascade-delete foreign key, every message
of that conversation, while all other conversations, the messages of other
conversations, and the users table are unchanged. -/
theorem delete_conversation_cascades (db : DB) (convId userId : Nat)
    (hown : ownsConversation db convId userId = true) :
    ((deleteConversation db convId userId).1 = ⟨200, .deleteOk⟩)
    ∧ (∀ m ∈ (deleteConversation db convId userId).2.messages, m.conversation_id ≠ convId)
    ∧ (∀ m ∈ db.messages, m.conversation_id ≠ convId →
        m ∈ (deleteConversation db convId userId).2.messages)
    ∧ (∀ m ∈ (deleteConversation db convId userId).2.messages, m ∈ db.messages)
    ∧ (∀ c ∈ (deleteConversation db convId userId).2.conversations, c.id ≠ convId)
    ∧ (∀ c ∈ db.conversations, c.id ≠ convId →
        c ∈ (deleteConversation db convId userId).2.conversations)
    ∧ (∀ c ∈ (deleteConversation db convId userId).2.conversations, c ∈ db.conversations)
    ∧ (deleteConversation db convId userId).2.users = db.users := by
  have hde : deleteConversation db convId userId =
      (⟨200, .deleteOk⟩,
       { db with conversations := db.conversations.filter (fun c => !(c.id == convId)),
                 messages := db.messages.filter (fun m => !(m.conversation_id == convId)) }) := by
    simp [deleteConversation, hown]
  rw [hde]
  refine ⟨rfl, ?_, ?_, ?_, ?_, ?_, ?_, rfl⟩ <;>
    simp +contextual [List.mem_filter]

/-- Witness for C5: deleting conversation 2 of the fixture database removes
its two messages, keeps conversation 3 with its message, and leaves the
users table alone. -/
theorem delete_conversation_cascades_witness :
    ((deleteConversation fixtureDB 2 1).1 = ⟨200, .deleteOk⟩)
    ∧ (∀ m ∈ (deleteConversation fixtureDB 2 1).2.messages, m.conversation_id ≠ 2)
    ∧ (∀ m ∈ fixtureDB.messages, m.conversation_id ≠ 2 →
        m ∈ (deleteConversation fixtureDB 2 1).2.messages)
    ∧ (∀ m ∈ (deleteConversation fixtureDB 2 1).2.messages, m ∈ fixtureDB.messages)
    ∧ (∀ c ∈ (deleteConversation fixtureDB 2 1).2.conversations, c.id ≠ 2)
    ∧ (∀ c ∈ fixtureDB.conversations, c.id ≠ 2 →
        c ∈ (deleteConversation fixtureDB 2 1).2.conversations)
    ∧ (∀ c ∈ (deleteConversation fixtureDB 2 1).2.conversations, c ∈ fixtureDB.conversations)
    ∧ (deleteConversation fixtureDB 2 1).2.users = fixtureDB.users :=
  delete_conversation_cascades fixtureDB 2 1 (by decide)

/-- A nonempty string is not `isEmpty` (bridging the JS truthiness checks). -/
theorem string_isEmpty_false {s : String} (h : s ≠ "") : s.isEmpty = false := by
  rw [Bool.eq_false_iff]
  intro hq
  exact h ((String.isEmpty_iff s).mp hq)

/-! ### C7 — signup rejects duplicate email -/

/-- C7: a signup whose email already exists in the users table is answered
400 and inserts no row; with all fields present, a long enough password and
a fresh email, the user is inserted with a bcrypt password hash and the
response is a 201 carrying the user and a JWT token. -/
theorem signup_duplicate_email (db : DB) (now : Nat) (b : SignupBody) :
    ((∃ u ∈ db.users, u.email = b.email) →
      (signup db now b).1.status = 400 ∧ (signup db now b).2 = db)
    ∧ ((∀ u ∈ db.users, u.email ≠ b.email) → b.name ≠ "" → b.email ≠ "" →
      6 ≤ b.password.length →
      signup db now b =
        (⟨201, .signupOk db.nextId b.name b.email (jwtSign ⟨db.nextId, b.email⟩)⟩,
         { db with nextId := db.nextId + 1,
                   users := db.users ++
                     [⟨db.nextId, b.email, bcryptHash b.password, b.name, now, none, true⟩] })) := by
  constructor
  · rintro ⟨u, hu, hue⟩
    have hmem : u ∈ db.users.filter (fun v => v.email == b.email) := by
      simp [List.mem_filter, hu, hue]
    have hne : (db.users.filter (fun v => v.email == b.email)).isEmpty = false := by
      cases hq : (db.users.filter (fun v => v.email == b.email)).isEmpty
      · rfl
      · rw [List.isEmpty_iff] at hq
        rw [hq] at hmem
        simp at hmem
    unfold signup
    split
    · exact ⟨rfl, rfl⟩
    split
    · exact ⟨rfl, rfl⟩
    split
    · exact ⟨rfl, rfl⟩
    rename_i hfil
    rw [hne] at hfil
    simp at hfil
  · intro hfresh hname hemail hlen
    have hpw : b.password ≠ "" := by
      intro h
      rw [h] at hlen
      simp at hlen
    have h1 : (b.name.isEmpty || b.email.isEmpty || b.password.isEmpty) = false := by
      simp [string_isEmpty_false hname, string_isEmpty_false hemail, string_isEmpty_false hpw]
    have h2 : ¬ b.password.length < 6 := by omega
    have h3 : (db.users.filter (fun v => v.email == b.email)).isEmpty = true := by
      rw [List.isEmpty_iff, List.filter_eq_nil_iff]
      intro u hu
      simp [hfresh u hu]
    simp [signup, h1, h2, h3]

/-- A signup body that collides with the fixture user's email. -/
def dupEmailBody : SignupBody := ⟨"Another", "ana@example.com", "longenough"⟩

/-- A signup body with a fresh email. -/
def freshEmailBody : SignupBody := ⟨"Bea", "bea@example.com", "longenough"⟩

/-- Witness for C7: signing up with the fixture user's email is rejected 400
without touching the database, and signing up with a fresh email inserts the
bcrypt-hashed user and returns 201 with a token. -/
theorem signup_duplicate_email_witness :
    ((signup fixtureDB 9 dupEmailBody).1.status = 400
      ∧ (signup fixtureDB 9 dupEmailBody).2 = fixtureDB)
    ∧ (signup fixtureDB 9 freshEmailBody =
        (⟨201, .signupOk fixtureDB.nextId freshEmailBody.name freshEmailBody.email
            (jwtSign ⟨fixtureDB.nextId, freshEmailBody.email⟩)⟩,
         { fixtureDB with
             nextId := fixtureDB.nextId + 1,
             users := fixtureDB.users ++
               [⟨fixtureDB.nextId, freshEmailBody.email, bcryptHash freshEmailBody.password,
                 freshEmailBody.name, 9, none, true⟩] })) :=
  ⟨(signup_duplicate_email fixtureDB 9 dupEmailBody).1
      ⟨⟨1, "ana@example.com", bcryptHash "secret1", "Ana", 0, none, true⟩, by decide, rfl⟩,
   (signup_duplicate_email fixtureDB 9 freshEmailBody).2 (by decide) (by decide) (by decide)
      (by decide)⟩

/-! ### C8 — login rejects a wrong password -/

/-- C8: a login with an unknown email, or with a password that does not
bcrypt-match the stored hash, is answered 401 with the same
`Invalid email or password` error and leaves the database (in particular
`last_login`) unchanged; with the matching password of an active user it
answers with the user and a JWT token and records the login time. -/
theorem login_wrong_password (db : DB) (now : Nat) (b : LoginBody)
    (hemail : b.email ≠ "") (hpw : b.password ≠ "") :
    ((∀ u ∈ db.users, u.email ≠ b.email) →
      login db now b = (⟨401, .errorMsg "Invalid email or password"⟩, db))
    ∧ (∀ u, db.users.find? (fun x => x.email == b.email && x.is_active) = some u →
      bcryptCompare b.password u.password_hash = false →
      login db now b = (⟨401, .errorMsg "Invalid email or password"⟩, db))
    ∧ (∀ u, db.users.find? (fun x => x.email == b.email && x.is_active) = some u →
      bcryptCompare b.password u.password_hash = true →
      login db now b =
        (⟨200, .loginOk u.id u.name u.email (jwtSign ⟨u.id, u.email⟩)⟩,
         { db with users := db.users.map (fun x =>
             if x.id == u.id then { x with last_login := some now } else x) })) := by
  have hval : (b.email.isEmpty || b.password.isEmpty) = false := by
    simp [string_isEmpty_false hemail, string_isEmpty_false hpw]
  refine ⟨?_, ?_, ?_⟩
  · intro hunknown
    have hfind : db.users.find? (fun x => x.email == b.email && x.is_active) = none := by
      rw [List.find?_eq_none]
      intro u hu
      simp [hunknown u hu]
    simp [login, hval, hfind]
  · intro u hfind hcmp
    simp [login, hval, hfind, hcmp]
  · intro u hfind hcmp
    simp [login, hval, hfind, hcmp]

/-- Witness for C8: against the fixture database, a wrong password for the
stored user is answered 401 with the database unchanged, an unknown email is
answered with the same 401 body, and the correct password logs in and sets
`last_login`. -/
theorem login_wrong_password_witness :
    (login fixtureDB 11 ⟨"zoe@example.com", "whatever"⟩
      = (⟨401, .errorMsg "Invalid email or password"⟩, fixtureDB))
    ∧ (login fixtureDB 11 ⟨"ana@example.com", "wrongpass"⟩
      = (⟨401, .errorMsg "Invalid email or password"⟩, fixtureDB))
    ∧ (login fixtureDB 11 ⟨"ana@example.com", "secret1"⟩
      = (⟨200, .loginOk 1 "Ana" "ana@example.com" (jwtSign ⟨1, "ana@example.com"⟩)⟩,
         { fixtureDB with users := fixtureDB.users.map (fun x =>
             if x.id == 1 then { x with last_login := some 11 } else x) })) := by
  refine ⟨?_, ?_, ?_⟩
  · exact (login_wrong_password fixtureDB 11 ⟨"zoe@example.com", "whatever"⟩ (by decide)
      (by decide)).1 (by decide)
  · exact (login_wrong_password fixtureDB 11 ⟨"ana@example.com", "wrongpass"⟩ (by decide)
      (by decide)).2.1 ⟨1, "ana@example.com", bcryptHash "secret1", "Ana", 0, none, true⟩
      (by decide) (by decide)
  · exact (login_wrong_password fixtureDB 11 ⟨"ana@example.com", "secret1"⟩ (by decide)
      (by decide)).2.2 ⟨1, "ana@example.com", bcryptHash "secret1", "Ana", 0, none, true⟩
      (by decide) (by decide)

/-! ### C10 — listing conversations -/

/-- C10: `GET /api/conversations` leaves the database unchanged and returns
exactly the caller's non-archived conversations — none of another user, none
archived — each with its stored message count, ordered by `updated_at`
descending. -/
theorem get_conversations_spec (db : DB) (userId : Nat) :
    ((getConversations db userId).2 = db)
    ∧ ((getConversations db userId).1.1 = 200)
    ∧ ((getConversations db userId).1.2 = .convList (conversationSummaries db userId))
    ∧ (∀ s ∈ conversationSummaries db userId, ∃ c ∈ db.conversations,
        c.user_id = userId ∧ c.is_archived = false
        ∧ s = ⟨c.id, c.title, c.created_at, c.updated_at, messageCountOf db c.id⟩)
    ∧ (∀ c ∈ db.conversations, c.user_id = userId → c.is_archived = false →
        (⟨c.id, c.title, c.created_at, c.updated_at, messageCountOf db c.id⟩ : ConvSummary)
          ∈ conversationSummaries db userId)
    ∧ (conversationSummaries db userId).Pairwise (fun a b => b.updatedAt ≤ a.updatedAt) := by
  refine ⟨rfl, rfl, rfl, ?_, ?_, ?_⟩
  · intro s hs
    simp only [conversationSummaries, List.mem_map] at hs
    obtain ⟨c, hc, hsc⟩ := hs
    rw [List.mem_insertionSort] at hc
    rw [List.mem_filter] at hc
    refine ⟨c, hc.1, ?_, ?_, hsc.symm⟩
    · have := hc.2
      simp at this
      exact this.1
    · have := hc.2
      simp at this
      exact this.2
  · intro c hc hcu hca
    simp only [conversationSummaries, List.mem_map]
    refine ⟨c, ?_, rfl⟩
    rw [List.mem_insertionSort, List.mem_filter]
    exact ⟨hc, by simp [hcu, hca]⟩
  · have hsorted : (((db.conversations.filter
        (fun c => c.user_id == userId && !c.is_archived)).insertionSort
          updatedDesc)).Sorted updatedDesc :=
      List.sorted_insertionSort updatedDesc _
    simp only [conversationSummaries]
    exact List.Pairwise.map _ (fun a b h => h) hsorted

/-- Witness for C10: listing user 1's conversations in the fixture database
returns both conversations (the more recently updated one first, with
message counts 2 and 1), unchanged database. -/
theorem get_conversations_spec_witness :
    ((getConversations fixtureDB 1).2 = fixtureDB)
    ∧ ((getConversations fixtureDB 1).1.1 = 200)
    ∧ ((getConversations fixtureDB 1).1.2 = .convList (conversationSummaries fixtureDB 1))
    ∧ (∀ s ∈ conversationSummaries fixtureDB 1, ∃ c ∈ fixtureDB.conversations,
        c.user_id = 1 ∧ c.is_archived = false
        ∧ s = ⟨c.id, c.title, c.created_at, c.updated_at, messageCountOf fixtureDB c.id⟩)
    ∧ (∀ c ∈ fixtureDB.conversations, c.user_id = 1 → c.is_archived = false →
        (⟨c.id, c.title, c.created_at, c.updated_at, messageCountOf fixtureDB c.id⟩ : ConvSummary)
          ∈ conversationSummaries fixtureDB 1)
    ∧ (conversationSummaries fixtureDB 1).Pairwise (fun a b => b.updatedAt ≤ a.updatedAt) :=
  get_conversations_spec fixtureDB 1

/-! ### C3 — fixed-delay debounce batching -/

/-- C3: while no generation is running, `sendMessage` appends the (nonempty)
message to the pending batch and (re)sets the single debounce timer to the
fixed 500 ms `BATCH_DELAY`; when that timer fires, all pending messages are
drained, joined with blank lines into one combined string, and exactly one
upstream generation call is issued with it. -/
theorem debounce_batches_messages (s : ClientState) (msg : String)
    (hgen : s.isGeneratingResponse = false) :
    BATCH_DELAY = 500
    ∧ (msg ≠ "" → sendMessage s msg =
        { s with pendingMessages := s.pendingMessages ++ [msg],
                 batchTimeout := some BATCH_DELAY })
    ∧ (s.pendingMessages ≠ [] →
        processBatchedMessages { s with batchTimeout := none } =
          { s with batchTimeout := none,
                   pendingMessages := [],
                   isGeneratingResponse := true,
                   upstreamCalls :=
                     s.upstreamCalls ++ [combineMessages s.pendingMessages] }) := by
  refine ⟨rfl, ?_, ?_⟩
  · intro hmsg
    simp [sendMessage, hgen, string_isEmpty_false hmsg]
  · intro hpending
    have hne : s.pendingMessages.isEmpty = false := by
      cases hq : s.pendingMessages.isEmpty
      · rfl
      · rw [List.isEmpty_iff] at hq
        exact absurd hq hpending
    simp [processBatchedMessages, hgen, hne]

/-- Witness for C3: from an idle state with two pending messages, sending a
third appends it and arms the 500 ms timer; when the timer fires, the three
messages are drained and one upstream call with the blank-line join is
logged. -/
theorem debounce_batches_messages_witness :
    BATCH_DELAY = 500
    ∧ ("brb" ≠ "" → sendMessage ⟨["hi", "are you there"], some 500, false, []⟩ "brb" =
        { (⟨["hi", "are you there"], some 500, false, []⟩ : ClientState) with
            pendingMessages := ["hi", "are you there"] ++ ["brb"],
            batchTimeout := some BATCH_DELAY })
    ∧ ((["hi", "are you there"] : List String) ≠ [] →
        processBatchedMessages
            { (⟨["hi", "are you there"], some 500, false, []⟩ : ClientState) with
                batchTimeout := none } =
          { (⟨["hi", "are you there"], some 500, false, []⟩ : ClientState) with
              batchTimeout := none,
              pendingMessages := [],
              isGeneratingResponse := true,
              upstreamCalls := [] ++ [combineMessages ["hi", "are you there"]] }) :=
  debounce_batches_messages ⟨["hi", "are you there"], some 500, false, []⟩ "brb" rfl

/-! ### C4 — at most one generation request in flight -/

/-- C4: while `isGeneratingResponse` is set, `sendMessage` and
`processBatchedMessages` return without doing anything, and no event-loop
step from a generating state issues a new upstream call, so a second
generation request is never started before the current one completes or is
aborted. -/
theorem single_generation_in_flight :
    (∀ (s : ClientState) (msg : String), s.isGeneratingResponse = true →
      sendMessage s msg = s)
    ∧ (∀ s : ClientState, s.isGeneratingResponse = true →
      processBatchedMessages s = s)
    ∧ (∀ (s : ClientState) (e : ClientEvent) (s2 : ClientState),
      ClientStep s e s2 → s.isGeneratingResponse = true →
      s2.upstreamCalls = s.upstreamCalls) := by
  refine ⟨?_, ?_, ?_⟩
  · intro s msg h
    simp [sendMessage, h]
  · intro s h
    simp [processBatchedMessages, h]
  · intro s e s2 hstep h
    cases hstep with
    | send msg => simp [sendMessage, h]
    | timerFire hd => simp [processBatchedMessages, h]
    | complete hg =>
      simp only [completeGeneration]
      split
      · rfl
      · rfl
    | stop => rfl

/-- Witness for C4: in a generating state with one pending message and one
logged upstream call, a send and a timer fire both leave the state — in
particular the log of upstream calls — untouched. -/
theorem single_generation_in_flight_witness :
    (sendMessage ⟨["queued"], none, true, ["first call"]⟩ "again" =
      ⟨["queued"], none, true, ["first call"]⟩)
    ∧ (processBatchedMessages ⟨["queued"], none, true, ["first call"]⟩ =
      ⟨["queued"], none, true, ["first call"]⟩)
    ∧ ((sendMessage ⟨["queued"], none, true, ["first call"]⟩ "again").upstreamCalls =
      ["first call"]) :=
  ⟨single_generation_in_flight.1 ⟨["queued"], none, true, ["first call"]⟩ "again" rfl,
   single_generation_in_flight.2.1 ⟨["queued"], none, true, ["first call"]⟩ rfl,
   single_generation_in_flight.2.2 ⟨["queued"], none, true, ["first call"]⟩ (.send "again")
     (sendMessage ⟨["queued"], none, true, ["first call"]⟩ "again")
     (ClientStep.send "again") rfl⟩

/-! ### C2 — model fallback and key rotation -/

/-- An endpoint that answers 401 on the first default configuration, succeeds
on the second, and 404s everything else. -/
def authBugEnv : ModelConfig → FetchOutcome := fun c =>
  if c.model == "gemini-1.5-flash" then
    .httpError 401 "API key not valid. Please pass a valid API key."
  else if c.model == "gemini-1.5-pro" then
    .ok "second model answered"
  else
    .httpError 404 ("models/" ++ c.model ++ " is not found for API version v1beta")

/-- C2 (divergence): the claim says a 401/403 answer aborts the
configuration loop for the current API key, and the code's own comment says
the same, but the thrown authentication error is caught by the enclosing
response-body `catch`, whose second body read fails into the outer fetch
`catch`, and the loop continues: with a 401 on the first configuration the
second configuration is still consulted (first conjunct), and when every
configuration answers 401 the error finally thrown is the body-stream
`TypeError`, not the authentication error (second conjunct). -/
theorem auth_error_does_not_abort_model_loop :
    modelLoop authBugEnv defaultModelConfigs none = Except.ok "second model answered"
    ∧ tryGenerateWithKey (fun _ _ => FetchOutcome.httpError 401 "API key expired") "user-key"
        defaultModelConfigs = Except.error bodyAlreadyReadMsg := by
  constructor
  · rfl
  · rfl

/-! ### C1 — message_order is a gapless 1,2,3,... sequence -/

/-- `ordersOf` depends only on the messages table. -/
theorem ordersOf_congr {db db' : DB} (h : db'.messages = db.messages) :
    ordersOf db' = ordersOf db := by
  funext c
  unfold ordersOf
  rw [h]

/-- Appending one message row appends its order to its own conversation's
order list and leaves every other conversation's list unchanged. -/
theorem ordersOf_snoc (db : DB) {db' : DB} (msg : MessageRow)
    (h : db'.messages = db.messages ++ [msg]) (c : Nat) :
    ordersOf db' c
      = ordersOf db c ++ (if msg.conversation_id == c then [msg.message_order] else []) := by
  unfold ordersOf
  rw [h, List.filter_append, List.map_append]
  congr 1
  by_cases hc : (msg.conversation_id == c) = true
  · simp [hc]
  · simp [hc]

/-- The maximum of `[s, ..., s+n-1]`. -/
theorem listMax_range' : ∀ (n s : Nat),
    listMax (List.range' s n) = if n = 0 then 0 else s + n - 1
  | 0, _ => rfl
  | n + 1, s => by
    rw [List.range'_succ]
    unfold listMax
    rw [listMax_range' n (s + 1)]
    cases n with
    | zero => simp
    | succ m =>
      simp only [Nat.succ_ne_zero, if_false]
      omega

/-- On a gapless conversation the stored maximum equals the message count. -/
theorem maxOrder_of_gapless {db : DB} {c n : Nat} (h : ordersOf db c = List.range' 1 n) :
    maxOrder db c = n := by
  unfold maxOrder
  rw [h, listMax_range']
  cases n with
  | zero => rfl
  | succ m => simp

/-- The gapless invariant: every conversation's stored `message_order`
column reads `1, 2, ..., n` in table order. -/
def OrderInv (db : DB) : Prop :=
  ∀ c, ordersOf db c = List.range' 1 (ordersOf db c).length

/-- The invariant only depends on the messages table. -/
theorem orderInv_congr {db db' : DB} (h : db'.messages = db.messages)
    (hinv : OrderInv db) : OrderInv db' := by
  intro c
  rw [ordersOf_congr h]
  exact hinv c

/-- Appending a message whose order is the conversation's maximum plus one
preserves the invariant. -/
theorem orderInv_snoc {db db' : DB} {msg : MessageRow}
    (h : db'.messages = db.messages ++ [msg])
    (hord : msg.message_order = maxOrder db msg.conversation_id + 1)
    (hinv : OrderInv db) : OrderInv db' := by
  intro c
  rw [ordersOf_snoc db msg h c]
  by_cases hc : (msg.conversation_id == c) = true
  · have hceq : msg.conversation_id = c := by simpa using hc
    rw [if_pos hc]
    have hbase := hinv c
    have hmax : maxOrder db c = (ordersOf db c).length := maxOrder_of_gapless hbase
    rw [hord, hceq, hmax, hbase]
    rw [List.length_append, List.length_range']
    simp only [List.length_singleton]
    rw [List.range'_1_concat, Nat.add_comm 1 (ordersOf db c).length]
  · rw [if_neg hc, List.append_nil]
    exact hinv c

/-- Removing every message of one conversation preserves the invariant (the
deleted conversation's list becomes empty). -/
theorem orderInv_filter_out (convId : Nat) {db db' : DB}
    (h : db'.messages = db.messages.filter (fun m => !(m.conversation_id == convId)))
    (hinv : OrderInv db) : OrderInv db' := by
  intro c
  by_cases hc : c = convId
  · subst hc
    have hz : ordersOf db' c = [] := by
      unfold ordersOf
      rw [h, List.filter_filter]
      have : (db.messages.filter
          (fun m => (m.conversation_id == c) && !(m.conversation_id == c))) = [] := by
        rw [List.filter_eq_nil_iff]
        intro m _
        by_cases hm : (m.conversation_id == c) = true <;> simp [hm]
      rw [this]
      rfl
    rw [hz]
    rfl
  · have heq : ordersOf db' c = ordersOf db c := by
      unfold ordersOf
      rw [h, List.filter_filter]
      congr 1
      apply List.filter_congr
      intro m _
      by_cases hm : (m.conversation_id == c) = true
      · have hmc : m.conversation_id = c := by simpa using hm
        have : (m.conversation_id == convId) = false := by
          rw [hmc]
          simpa using fun hcc => hc hcc
        simp [hm, this]
      · simp [hm]
    rw [heq]
    exact hinv c

/-- The orders written by the bulk insertion loop: its own conversation gets
`startOrder+1, ..., startOrder+len` appended in array order, every other
conversation is untouched. -/
theorem bulkInsertLoop_ordersOf (now convId : Nat) :
    ∀ (items : List BulkItem) (k : Nat) (db : DB) (c : Nat),
    ordersOf (bulkInsertLoop now convId items k db) c
      = ordersOf db c ++ (if convId == c then List.range' (k + 1) items.length else [])
  | [], k, db, c => by
    simp [bulkInsertLoop]
  | item :: rest, k, db, c => by
    simp only [bulkInsertLoop]
    split
    · rw [bulkInsertLoop_ordersOf now convId rest (k + 1) _ c]
      rw [ordersOf_snoc db ⟨db.nextId, convId, item.role, item.content, now, k + 1⟩ rfl c]
      by_cases hc : (convId == c) = true
      · simp only [hc, if_true, List.append_assoc, List.length_cons]
        congr 1
      · simp [hc]
    · rw [bulkInsertLoop_ordersOf now convId rest (k + 1) _ c]
      rw [ordersOf_snoc db ⟨db.nextId, convId, item.role, item.content, now, k + 1⟩ rfl c]
      by_cases hc : (convId == c) = true
      · simp only [hc, if_true, List.append_assoc, List.length_cons]
        congr 1
      · simp [hc]

/-- Starting the bulk loop at the conversation's current maximum preserves
the invariant. -/
theorem orderInv_bulkInsertLoop {db : DB} (hinv : OrderInv db) (now convId : Nat)
    (items : List BulkItem) :
    OrderInv (bulkInsertLoop now convId items (maxOrder db convId) db) := by
  intro c
  rw [bulkInsertLoop_ordersOf now convId items (maxOrder db convId) db c]
  by_cases hc : (convId == c) = true
  · have hceq : convId = c := by simpa using hc
    subst hceq
    rw [if_pos hc]
    have hbase := hinv convId
    have hmax : maxOrder db convId = (ordersOf db convId).length := maxOrder_of_gapless hbase
    rw [hmax, hbase]
    rw [List.length_append, List.length_range', List.length_range']
    rw [Nat.add_comm (ordersOf db convId).length 1]
    rw [List.range'_append_1 1 (ordersOf db convId).length items.length]
    congr 1
    omega
  · rw [if_neg hc, List.append_nil]
    exact hinv c

/-- `addMessage` either rejects the request (messages unchanged) or appends
exactly one row carrying order max+1. -/
theorem addMessage_messages_cases (db : DB) (now convId userId : Nat) (b : MessageBody) :
    (addMessage db now convId userId b).2.messages = db.messages
    ∨ (addMessage db now convId userId b).2.messages
        = db.messages ++ [⟨db.nextId, convId, b.role, b.content, now, maxOrder db convId + 1⟩] := by
  simp only [addMessage]
  split
  · exact Or.inl rfl
  split
  · exact Or.inl rfl
  split
  · exact Or.inl rfl
  split
  · exact Or.inr rfl
  · exact Or.inr rfl

/-- `bulkAddMessages` either rejects the request or leaves exactly the
messages written by the insertion loop started at the current maximum. -/
theorem bulkAddMessages_messages_cases (db : DB) (now convId userId : Nat)
    (items : List BulkItem) :
    (bulkAddMessages db now convId userId items).2.messages = db.messages
    ∨ (bulkAddMessages db now convId userId items).2.messages
        = (bulkInsertLoop now convId items (maxOrder db convId) db).messages := by
  simp only [bulkAddMessages]
  split
  · exact Or.inl rfl
  split
  · exact Or.inl rfl
  · exact Or.inr rfl

/-- Every mutating API request preserves the gapless invariant. -/
theorem orderInv_applyOp {db : DB} (hinv : OrderInv db) (op : ServerOp) :
    OrderInv (applyOp db op) := by
  cases op with
  | signupOp now b =>
    apply orderInv_congr ?_ hinv
    show (signup db now b).2.messages = db.messages
    unfold signup
    split
    · rfl
    split
    · rfl
    split
    · rfl
    rfl
  | loginOp now b =>
    apply orderInv_congr ?_ hinv
    show (login db now b).2.messages = db.messages
    unfold login
    split
    · rfl
    split
    · rfl
    split
    · rfl
    rfl
  | createConvOp now userId title =>
    apply orderInv_congr ?_ hinv
    rfl
  | updateConvOp now convId userId title =>
    apply orderInv_congr ?_ hinv
    show (updateConversationTitle db now convId userId title).2.messages = db.messages
    unfold updateConversationTitle
    split
    · rfl
    split
    · rfl
    rfl
  | deleteConvOp convId userId =>
    by_cases hown : ownsConversation db convId userId = true
    · refine orderInv_filter_out convId ?_ hinv
      show (deleteConversation db convId userId).2.messages = _
      simp [deleteConversation, hown]
    · apply orderInv_congr ?_ hinv
      show (deleteConversation db convId userId).2.messages = db.messages
      rw [Bool.not_eq_true] at hown
      simp [deleteConversation, hown]
  | addMsgOp now convId userId b =>
    show OrderInv (addMessage db now convId userId b).2
    rcases addMessage_messages_cases db now convId userId b with h | h
    · exact orderInv_congr h hinv
    · exact orderInv_snoc h rfl hinv
  | bulkAddOp now convId userId items =>
    show OrderInv (bulkAddMessages db now convId userId items).2
    rcases bulkAddMessages_messages_cases db now convId userId items with h | h
    · exact orderInv_congr h hinv
    · exact orderInv_congr h (orderInv_bulkInsertLoop hinv now convId items)

/-- Every reachable database satisfies the gapless invariant. -/
theorem orderInv_reachable {db : DB} (h : Reachable db) : OrderInv db := by
  induction h with
  | init => intro c; rfl
  | step op h ih => exact orderInv_applyOp ih op

/-- Dropping client-supplied orders does not change the bulk loop. -/
theorem bulkInsertLoop_clearOrder (now convId : Nat) :
    ∀ (items : List BulkItem) (k : Nat) (db : DB),
    bulkInsertLoop now convId (items.map clearBulkOrder) k db
      = bulkInsertLoop now convId items k db
  | [], _, _ => rfl
  | i :: rest, k, db => by
    simp only [List.map_cons]
    unfold bulkInsertLoop
    simp only [clearBulkOrder]
    exact bulkInsertLoop_clearOrder now convId rest (k + 1) _

/-- The messages written by a successful `addMessage`: one appended row with
order max+1. -/
theorem addMessage_success_messages (db : DB) (now convId userId : Nat) (b : MessageBody)
    (hrole : (b.role == "user" || b.role == "ai" || b.role == "system") = true)
    (hcontent : b.content ≠ "") (hown : ownsConversation db convId userId = true) :
    (addMessage db now convId userId b).2.messages
      = db.messages ++ [⟨db.nextId, convId, b.role, b.content, now, maxOrder db convId + 1⟩] := by
  have hrne : b.role ≠ "" := by
    intro hr
    rw [hr] at hrole
    simp at hrole
  have h1 : (b.role.isEmpty || b.content.isEmpty) = false := by
    simp [string_isEmpty_false hrne, string_isEmpty_false hcontent]
  simp only [addMessage, h1, hrole, hown, Bool.not_true, Bool.false_eq_true, if_false]
  split
  · rfl
  · rfl

/-- C1: on every reachable database each conversation's stored orders are
exactly `1, 2, ..., n` (strictly increasing and gapless); a successful
single insert appends the current maximum plus one, a successful bulk insert
appends `max+1, ..., max+k` following the array order, and a client-supplied
`message_order` value — in the single body or in any bulk item — has no
effect on the result. -/
theorem message_order_gapless (db : DB) (h : Reachable db) :
    (∀ convId, ordersOf db convId = List.range' 1 (ordersOf db convId).length)
    ∧ (∀ (now convId userId : Nat) (b : MessageBody),
        (b.role == "user" || b.role == "ai" || b.role == "system") = true →
        b.content ≠ "" → ownsConversation db convId userId = true →
        ordersOf (addMessage db now convId userId b).2 convId
          = ordersOf db convId ++ [maxOrder db convId + 1])
    ∧ (∀ (now convId userId : Nat) (items : List BulkItem),
        items ≠ [] → ownsConversation db convId userId = true →
        ordersOf (bulkAddMessages db now convId userId items).2 convId
          = ordersOf db convId ++ List.range' (maxOrder db convId + 1) items.length)
    ∧ (∀ (now convId userId : Nat) (role content : String) (o : Option Nat),
        addMessage db now convId userId ⟨role, content, o⟩
          = addMessage db now convId userId ⟨role, content, none⟩)
    ∧ (∀ (now convId userId : Nat) (items : List BulkItem),
        bulkAddMessages db now convId userId (items.map clearBulkOrder)
          = bulkAddMessages db now convId userId items) := by
  refine ⟨orderInv_reachable h, ?_, ?_, ?_, ?_⟩
  · intro now convId userId b hrole hcontent hown
    rw [ordersOf_snoc db ⟨db.nextId, convId, b.role, b.content, now, maxOrder db convId + 1⟩
      (addMessage_success_messages db now convId userId b hrole hcontent hown) convId]
    simp
  · intro now convId userId items hne hown
    have hna : items.isEmpty = false := by
      cases hq : items.isEmpty
      · rfl
      · rw [List.isEmpty_iff] at hq
        exact absurd hq hne
    have hmsgs : (bulkAddMessages db now convId userId items).2.messages
        = (bulkInsertLoop now convId items (maxOrder db convId) db).messages := by
      simp only [bulkAddMessages, hna, hown, Bool.not_true, Bool.false_eq_true, if_false]
      rfl
    rw [ordersOf_congr hmsgs,
      bulkInsertLoop_ordersOf now convId items (maxOrder db convId) db convId]
    simp
  · intro now convId userId role content o
    rfl
  · intro now convId userId items
    unfold bulkAddMessages
    rw [bulkInsertLoop_clearOrder]
    have hie : (items.map clearBulkOrder).isEmpty = items.isEmpty := by
      cases items <;> rfl
    rw [hie]

/-- Witness for C1 at the reachable empty database. -/
theorem message_order_gapless_witness :
    (∀ convId, ordersOf DB.empty convId = List.range' 1 (ordersOf DB.empty convId).length)
    ∧ (∀ (now convId userId : Nat) (b : MessageBody),
        (b.role == "user" || b.role == "ai" || b.role == "system") = true →
        b.content ≠ "" → ownsConversation DB.empty convId userId = true →
        ordersOf (addMessage DB.empty now convId userId b).2 convId
          = ordersOf DB.empty convId ++ [maxOrder DB.empty convId + 1])
    ∧ (∀ (now convId userId : Nat) (items : List BulkItem),
        items ≠ [] → ownsConversation DB.empty convId userId = true →
        ordersOf (bulkAddMessages DB.empty now convId userId items).2 convId
          = ordersOf DB.empty convId ++ List.range' (maxOrder DB.empty convId + 1) items.length)
    ∧ (∀ (now convId userId : Nat) (role content : String) (o : Option Nat),
        addMessage DB.empty now convId userId ⟨role, content, o⟩
          = addMessage DB.empty now convId userId ⟨role, content, none⟩)
    ∧ (∀ (now convId userId : Nat) (items : List BulkItem),
        bulkAddMessages DB.empty now convId userId (items.map clearBulkOrder)
          = bulkAddMessages DB.empty now convId userId items) :=
  message_order_gapless DB.empty Reachable.init

end Bootchat
